import Mathlib

/-!
Shallow embedding of the X1 wallet card-authentication core:
the card authentication engine and query/response adapter (auth_card.c),
the wallet share data model (wallet.h), and the ETH sign-message back
controller (sign_messgae_controller_b_eth.c), together with theorems
checking the natural-language specification against this code.
-/

namespace X1Wallet

/-! ## Protobuf-generated constants

Tag and status constants come from the generated manager protobuf
headers.  Their concrete numeric values are irrelevant to the engine
(only distinctness is ever used); we fix one distinct assignment. -/

def MANAGER_AUTH_CARD_STATUS_INIT : Nat := 0
def MANAGER_AUTH_CARD_STATUS_USER_CONFIRMED : Nat := 1
def MANAGER_AUTH_CARD_STATUS_SERIAL_SIGNED : Nat := 2
def MANAGER_AUTH_CARD_STATUS_CHALLENGE_SIGNED : Nat := 3
def MANAGER_AUTH_CARD_STATUS_PAIRING_DONE : Nat := 4

def MANAGER_QUERY_AUTH_CARD_TAG : Nat := 2

def MANAGER_AUTH_CARD_REQUEST_INITIATE_TAG : Nat := 1
def MANAGER_AUTH_CARD_REQUEST_CHALLENGE_TAG : Nat := 2
def MANAGER_AUTH_CARD_REQUEST_RESULT_TAG : Nat := 3

def MANAGER_AUTH_CARD_RESPONSE_SERIAL_SIGNATURE_TAG : Nat := 1
def MANAGER_AUTH_CARD_RESPONSE_CHALLENGE_SIGNATURE_TAG : Nat := 2
def MANAGER_AUTH_CARD_RESPONSE_FLOW_COMPLETE_TAG : Nat := 3

/-- ACCEPTABLE_CARDS_ALL: the accept-all sentinel for the acceptable-cards
bitmask (all four card slots set). -/
def ACCEPTABLE_CARDS_ALL : Nat := 15

/-- manager_error_code_t (auth_card.c return codes). -/
inductive ManagerErrorCode where
  | MANAGER_TASK_SUCCESS
  | MANAGER_TASK_INVALID_ARGS
  | MANAGER_TASK_INVALID_STATE
  | MANAGER_TASK_DECODING_FAILED
  | MANAGER_TASK_ENCODING_FAILED
  | MANAGER_TASK_UNKNOWN_QUERY_REQUEST
  | MANAGER_TASK_P0_ABORT_OCCURED
  | MANAGER_TASK_INVALID_DEFAULT
  | MANAGER_TASK_FAILED
deriving DecidableEq, Repr

/-! ## Query and response structures (nanopb message model)

Optional protobuf fields carry their has_ flag explicitly, as in the
generated C structs. -/

structure AuthCardInitiateRequest where
  has_card_index : Bool
  card_index : Nat
  has_pair_card : Bool
  pair_card : Bool
deriving DecidableEq, Repr

structure AuthCardResultRequest where
  verified : Bool
deriving DecidableEq, Repr

structure ManagerAuthCardRequest where
  which_request : Nat
  initiate : AuthCardInitiateRequest
  result : AuthCardResultRequest
deriving DecidableEq, Repr

structure ManagerQuery where
  which_request : Nat
  auth_card : ManagerAuthCardRequest
deriving DecidableEq, Repr

/-- MANAGER_QUERY_INIT_ZERO. -/
def MANAGER_QUERY_INIT_ZERO : ManagerQuery :=
  ⟨0, ⟨0, ⟨false, 0, false, false⟩, ⟨false⟩⟩⟩

/-- manager_auth_card_response_t: the discriminant plus the only payload
field the engine ever writes (flow_complete.dummy_field); the signature
payloads are never populated by this code (TODO in the source). -/
structure ManagerAuthCardResponse where
  which_response : Nat
  flow_complete_dummy_field : Nat
deriving DecidableEq, Repr

/-- MANAGER_AUTH_CARD_RESPONSE_INIT_ZERO. -/
def MANAGER_AUTH_CARD_RESPONSE_INIT_ZERO : ManagerAuthCardResponse := ⟨0, 0⟩

/-! ## UI text model

The UI text constants (UI_TEXT_TAP_CARD, ui_text_tap_a_card,
UI_TEXT_PLACE_CARD_TILL_BEEP, "...") live outside this core; headings and
messages are modelled symbolically, keeping the data interpolated into
them by snprintf. -/

inductive UiHeading where
  | emptyText
  | tapCardNumber (card_index : Nat)
  | tapACard
deriving DecidableEq, Repr

inductive UiMessage where
  | emptyText
  | placeCardTillBeep (beeps : Nat)
  | dots
deriving DecidableEq, Repr

def SIGN_SERIAL_BEEP_COUNT (pair_card_required : Bool) : Nat :=
  if pair_card_required then 3 else 2

def SIGN_CHALLENGE_BEEP_COUNT (pair_card_required : Bool) : Nat :=
  if pair_card_required then 2 else 1

/-- auth_card_screen_ctx_t. -/
structure AuthCardScreenCtx where
  heading : UiHeading
  message : UiMessage
  acceptable_cards : Nat
  pair_card_required : Bool
deriving DecidableEq, Repr

/-- auth_card_data_t. -/
structure AuthCardData where
  query : ManagerQuery
  ctx : AuthCardScreenCtx
deriving DecidableEq, Repr

/-! ## Event model

get_events blocks for an event bounded by MAX_INACTIVITY_TIMEOUT; an
event status carries the P0 (abort/timeout) flag and the USB event.  The
byte stream of a USB event is represented by its decoding outcome:
`some q` when decode_manager_query succeeds on it, `none` when it fails.
The event source is a list consumed one entry per get_events call; on an
exhausted list the inactivity timeout fires, surfacing as a P0 event. -/

structure UsbEvent where
  flag : Bool
  msg : Option ManagerQuery
deriving DecidableEq, Repr

structure EvtStatus where
  p0_flag : Bool
  usb_event : UsbEvent
deriving DecidableEq, Repr

/-- Event status produced when the event source times out. -/
def timeoutEvt : EvtStatus := ⟨true, ⟨false, none⟩⟩

def get_events : List EvtStatus → EvtStatus × List EvtStatus
  | [] => (timeoutEvt, [])
  | e :: rest => (e, rest)

/-! ## Query/response adapter -/

/-- decode_and_verify_auth_card_query_if_usb_evt: null pointers are
modelled as `none`; the pair returned is (error code, pointee of
query_out after the call). -/
def decode_and_verify_auth_card_query_if_usb_evt :
    Option UsbEvent → Option ManagerQuery →
    ManagerErrorCode × Option ManagerQuery
  | none, query_out => (.MANAGER_TASK_INVALID_ARGS, query_out)
  | some _, none => (.MANAGER_TASK_INVALID_ARGS, none)
  | some usb_evt, some query_out =>
    if usb_evt.flag = false then
      (.MANAGER_TASK_SUCCESS, some query_out)
    else
      match usb_evt.msg with
      | none => (.MANAGER_TASK_DECODING_FAILED, some query_out)
      | some query =>
        if query.which_request = MANAGER_QUERY_AUTH_CARD_TAG then
          (.MANAGER_TASK_SUCCESS, some query)
        else
          (.MANAGER_TASK_UNKNOWN_QUERY_REQUEST, some query_out)

/-- send_auth_card_response: returns the error code and the list of wire
responses handed to usb_send_msg (empty or a singleton).  The external
encode_manager_result succeeds here: the destination buffer is sized
MANAGER_AUTH_CARD_RESPONSE_SIZE + 4 for exactly this message. -/
def send_auth_card_response (resp : Option ManagerAuthCardResponse) :
    ManagerErrorCode × List ManagerAuthCardResponse :=
  match resp with
  | none => (.MANAGER_TASK_INVALID_ARGS, [])
  | some r =>
    if r.which_response = 0 then (.MANAGER_TASK_INVALID_ARGS, [])
    else (.MANAGER_TASK_SUCCESS, [r])

/-! ## Card authentication engine -/

/-- Modelled from the spec: encode_card_number is external to the given
sources; the acceptable-card constraint is "encoded as a bitmask over
the valid card slots", so card number n maps to bit n-1. -/
def encode_card_number (card_number : Nat) : Nat := 2 ^ (card_number - 1)

def prepare_card_auth_context (auth_card_data : AuthCardData) : AuthCardData :=
  let ini := auth_card_data.query.auth_card.initiate
  let acceptable_cards :=
    if ini.has_card_index then encode_card_number ini.card_index
    else ACCEPTABLE_CARDS_ALL
  let heading :=
    if ini.has_card_index then UiHeading.tapCardNumber ini.card_index
    else UiHeading.tapACard
  let pair_card_required :=
    if ini.has_pair_card then ini.pair_card else false
  { auth_card_data with
    ctx := { heading := heading
             message := .placeCardTillBeep (SIGN_SERIAL_BEEP_COUNT pair_card_required)
             acceptable_cards := acceptable_cards
             pair_card_required := pair_card_required } }

/-- Result of one handler call: the error code, the pointees of the two
in/out pointers after the call, the flow-status cell, and the not yet
consumed events.  `none` (from the surrounding Option) marks undefined
behaviour: a dereference of a null pointer. -/
structure HandlerOut where
  code : ManagerErrorCode
  data : Option AuthCardData
  resp : Option ManagerAuthCardResponse
  flow_status : Nat
  events : List EvtStatus
deriving DecidableEq, Repr

def handle_sign_card_serial (data : Option AuthCardData)
    (resp : Option ManagerAuthCardResponse) (flow_status : Nat)
    (events : List EvtStatus) : Option HandlerOut :=
  match data, resp with
  | none, _ => some ⟨.MANAGER_TASK_INVALID_ARGS, data, resp, flow_status, events⟩
  | _, none => some ⟨.MANAGER_TASK_INVALID_ARGS, data, resp, flow_status, events⟩
  | some d, some r =>
    let (status, rest) := get_events events
    if status.p0_flag then
      some ⟨.MANAGER_TASK_P0_ABORT_OCCURED, some d, some r, flow_status, rest⟩
    else
      let d' := { d with
        ctx := { d.ctx with
          message := .placeCardTillBeep
            (SIGN_CHALLENGE_BEEP_COUNT d.ctx.pair_card_required) } }
      some ⟨.MANAGER_TASK_SUCCESS, some d',
        some { r with
          which_response := MANAGER_AUTH_CARD_RESPONSE_SERIAL_SIGNATURE_TAG },
        MANAGER_AUTH_CARD_STATUS_SERIAL_SIGNED, rest⟩

def handle_sign_challenge (data : Option AuthCardData)
    (resp : Option ManagerAuthCardResponse) (flow_status : Nat)
    (events : List EvtStatus) : Option HandlerOut :=
  match data, resp with
  | none, _ => some ⟨.MANAGER_TASK_INVALID_ARGS, data, resp, flow_status, events⟩
  | _, none => some ⟨.MANAGER_TASK_INVALID_ARGS, data, resp, flow_status, events⟩
  | some d, some r =>
    let (status, rest) := get_events events
    if status.p0_flag then
      some ⟨.MANAGER_TASK_P0_ABORT_OCCURED, some d, some r, flow_status, rest⟩
    else
      let d' := { d with
        ctx := { d.ctx with
          message := if d.ctx.pair_card_required then .placeCardTillBeep 1
                     else .dots } }
      some ⟨.MANAGER_TASK_SUCCESS, some d',
        some { r with
          which_response := MANAGER_AUTH_CARD_RESPONSE_CHALLENGE_SIGNATURE_TAG },
        MANAGER_AUTH_CARD_STATUS_CHALLENGE_SIGNED, rest⟩

def handle_auth_card_initiate_query (data : Option AuthCardData)
    (resp : Option ManagerAuthCardResponse) (flow_status : Nat)
    (events : List EvtStatus) : Option HandlerOut :=
  match data, resp with
  | none, _ => some ⟨.MANAGER_TASK_INVALID_ARGS, data, resp, flow_status, events⟩
  | _, none => some ⟨.MANAGER_TASK_INVALID_ARGS, data, resp, flow_status, events⟩
  | some d, some r =>
    if flow_status ≠ MANAGER_AUTH_CARD_STATUS_INIT then
      some ⟨.MANAGER_TASK_INVALID_STATE, some d, some r, flow_status, events⟩
    else
      handle_sign_card_serial (some (prepare_card_auth_context d)) (some r)
        MANAGER_AUTH_CARD_STATUS_USER_CONFIRMED events

def handle_auth_card_challenge_query (data : Option AuthCardData)
    (resp : Option ManagerAuthCardResponse) (flow_status : Nat)
    (events : List EvtStatus) : Option HandlerOut :=
  match data, resp with
  | none, _ => some ⟨.MANAGER_TASK_INVALID_ARGS, data, resp, flow_status, events⟩
  | _, none => some ⟨.MANAGER_TASK_INVALID_ARGS, data, resp, flow_status, events⟩
  | some d, some r =>
    if flow_status ≠ MANAGER_AUTH_CARD_STATUS_SERIAL_SIGNED then
      some ⟨.MANAGER_TASK_INVALID_STATE, some d, some r, flow_status, events⟩
    else
      handle_sign_challenge (some d) (some r) flow_status events

/-- handle_auth_card_result_query, including its null-pointer guard as
written in the source: `if (NULL == auth_card_data && NULL != resp)`. -/
def handle_auth_card_result_query (data : Option AuthCardData)
    (resp : Option ManagerAuthCardResponse) (flow_status : Nat)
    (events : List EvtStatus) : Option HandlerOut :=
  if data.isNone ∧ resp.isSome then
    some ⟨.MANAGER_TASK_INVALID_ARGS, data, resp, flow_status, events⟩
  else
    match data with
    | none => none
    | some d =>
      let result := d.query.auth_card.result.verified
      if flow_status = MANAGER_AUTH_CARD_STATUS_SERIAL_SIGNED then
        if result = false then
          match resp with
          | none => none
          | some r =>
            some ⟨.MANAGER_TASK_SUCCESS, some d,
              some { r with
                which_response := MANAGER_AUTH_CARD_RESPONSE_FLOW_COMPLETE_TAG
                flow_complete_dummy_field := 0 },
              flow_status, events⟩
        else
          some ⟨.MANAGER_TASK_INVALID_STATE, some d, resp, flow_status, events⟩
      else if flow_status = MANAGER_AUTH_CARD_STATUS_CHALLENGE_SIGNED then
        if result = false then
          match resp with
          | none => none
          | some r =>
            some ⟨.MANAGER_TASK_SUCCESS, some d,
              some { r with
                which_response := MANAGER_AUTH_CARD_RESPONSE_FLOW_COMPLETE_TAG
                flow_complete_dummy_field := 0 },
              flow_status, events⟩
        else
          match resp with
          | none => none
          | some r =>
            some ⟨.MANAGER_TASK_SUCCESS, some d,
              some { r with
                which_response := MANAGER_AUTH_CARD_RESPONSE_FLOW_COMPLETE_TAG
                flow_complete_dummy_field := 0 },
              MANAGER_AUTH_CARD_STATUS_PAIRING_DONE, events⟩
      else
        some ⟨.MANAGER_TASK_INVALID_STATE, some d, resp, flow_status, events⟩

def handle_auth_card_query (data : Option AuthCardData)
    (resp : Option ManagerAuthCardResponse) (flow_status : Nat)
    (events : List EvtStatus) : Option HandlerOut :=
  match data, resp with
  | none, _ => some ⟨.MANAGER_TASK_INVALID_ARGS, data, resp, flow_status, events⟩
  | _, none => some ⟨.MANAGER_TASK_INVALID_ARGS, data, resp, flow_status, events⟩
  | some d, some _ =>
    if d.query.auth_card.which_request = MANAGER_AUTH_CARD_REQUEST_INITIATE_TAG then
      handle_auth_card_initiate_query data resp flow_status events
    else if d.query.auth_card.which_request = MANAGER_AUTH_CARD_REQUEST_CHALLENGE_TAG then
      handle_auth_card_challenge_query data resp flow_status events
    else if d.query.auth_card.which_request = MANAGER_AUTH_CARD_REQUEST_RESULT_TAG then
      handle_auth_card_result_query data resp flow_status events
    else
      some ⟨.MANAGER_TASK_UNKNOWN_QUERY_REQUEST, data, resp, flow_status, events⟩

/-! ## Host-facing driver loop (card_auth_handler) -/

/-- How a run of card_auth_handler ended. -/
inductive LoopExit where
  | returned
  | outOfFuel
  | crashed
deriving DecidableEq, Repr

/-- Observable outcome of a card_auth_handler run: the wire responses in
emission order, the final value of the flow-status cell, and how the run
ended (`outOfFuel` is a modelling artefact: the loop was still running
after `fuel` iterations; `crashed` marks undefined behaviour). -/
structure DriverOut where
  responses : List ManagerAuthCardResponse
  flow_status : Nat
  exit : LoopExit
deriving DecidableEq, Repr

/-- One do-while loop of card_auth_handler, one iteration per unit of
fuel.  Mirrors the body order of the source: dispatch, send any produced
response (then zero the response struct), return when the flow status
reached PAIRING_DONE, block for the next event, decode it into the query
field, then re-check the do-while condition
`false == evt_status.p0_event.flag || PAIRING_DONE != flow_status`. -/
def auth_card_loop : Nat → AuthCardData → ManagerAuthCardResponse → Nat →
    List EvtStatus → List ManagerAuthCardResponse → DriverOut
  | 0, _, _, flow_status, _, sent => ⟨sent, flow_status, .outOfFuel⟩
  | fuel + 1, data, resp, flow_status, events, sent =>
    match handle_auth_card_query (some data) (some resp) flow_status events with
    | none => ⟨sent, flow_status, .crashed⟩
    | some out =>
      match out.data, out.resp with
      | some data', some resp' =>
        if out.code ≠ .MANAGER_TASK_SUCCESS then
          ⟨sent, out.flow_status, .returned⟩
        else
          let (resp'', sent') :=
            if resp'.which_response ≠ 0 then
              (MANAGER_AUTH_CARD_RESPONSE_INIT_ZERO,
               sent ++ (send_auth_card_response (some resp')).2)
            else (resp', sent)
          if out.flow_status = MANAGER_AUTH_CARD_STATUS_PAIRING_DONE then
            ⟨sent', out.flow_status, .returned⟩
          else
            let (evt_status, rest) := get_events out.events
            match decode_and_verify_auth_card_query_if_usb_evt
                (some evt_status.usb_event) (some data'.query) with
            | (code, query_out) =>
              if code ≠ .MANAGER_TASK_SUCCESS then
                ⟨sent', out.flow_status, .returned⟩
              else if evt_status.p0_flag = false ∨
                  out.flow_status ≠ MANAGER_AUTH_CARD_STATUS_PAIRING_DONE then
                auth_card_loop fuel { data' with query := query_out.getD data'.query }
                  resp'' out.flow_status rest sent'
              else
                ⟨sent', out.flow_status, .returned⟩
      | _, _ => ⟨sent, flow_status, .crashed⟩

/-- card_auth_handler: ignores any query whose auth-card sub-type is not
the initiate tag, otherwise resets the flow-status cell to INIT and runs
the driver loop.  `flow_status0` is the value the process-wide cell holds
on entry (whatever a previous flow left there). -/
def card_auth_handler (fuel : Nat) (query : ManagerQuery)
    (flow_status0 : Nat) (events : List EvtStatus) : DriverOut :=
  if query.auth_card.which_request ≠ MANAGER_AUTH_CARD_REQUEST_INITIATE_TAG then
    ⟨[], flow_status0, .returned⟩
  else
    auth_card_loop fuel
      { query := query
        ctx := { heading := .emptyText
                 message := .emptyText
                 acceptable_cards := ACCEPTABLE_CARDS_ALL
                 pair_card_required := false } }
      MANAGER_AUTH_CARD_RESPONSE_INIT_ZERO
      MANAGER_AUTH_CARD_STATUS_INIT events []

/-! ## Wallet share data model (wallet.h)

The Wallet record.  Byte arrays are lists of byte values; the 4-byte
checksum field is carried as its 32-bit value, whose two low bits are
the presence tag. -/

structure Wallet where
  wallet_name : List Nat
  wallet_info : Nat
  password_double_hash : List Nat
  wallet_share_with_mac_and_nonce : List Nat
  arbitrary_data_share : List Nat
  number_of_mnemonics : Nat
  minimum_number_of_shares : Nat
  total_number_of_shares : Nat
  arbitrary_data_size : Nat
  xcor : Nat
  checksum : Nat
  key : List Nat
  beneficiary_key : List Nat
  iv_for_beneficiary_key : List Nat
  wallet_id : List Nat
deriving DecidableEq, Repr

/-- Serialization of a Wallet in the fixed field order documented for
calculate_checksum in wallet.h: wallet_name | xcor | number_of_mnemonics
| total_number_of_shares | wallet_share_with_mac_and_nonce |
minimum_number_of_shares | wallet_info | key | wallet_id |
arbitrary_data_share. -/
def wallet_serialization (w : Wallet) : List Nat :=
  w.wallet_name ++ [w.xcor, w.number_of_mnemonics, w.total_number_of_shares] ++
    w.wallet_share_with_mac_and_nonce ++
    [w.minimum_number_of_shares, w.wallet_info] ++
    w.key ++ w.wallet_id ++ w.arbitrary_data_share

/-- Modelled from the spec: calculate_checksum (its definition, wallet.c,
is not among the given sources; wallet.h documents it).  The checksum is
the first 30 bits of a hash of the serialized wallet with the two low
bits forced to the presence tag `01`; `H` abstracts the external SHA-256
primitive restricted to 30 bits. -/
def calculate_checksum (H : List Nat → Nat) (w : Wallet) : Nat :=
  4 * (H (wallet_serialization w) % 2 ^ 30) + 1

/-- Checksum-present tag: the two low bits of the checksum field hold
`01`. -/
def checksum_tag_set (w : Wallet) : Bool := w.checksum % 4 = 1

/-- Modelled from the spec: verify_checksum (its definition, wallet.c, is
not among the given sources; wallet.h documents it).  Returns false on a
null wallet, true unconditionally when the checksum-present tag is
unset, and otherwise compares the stored checksum with the
recomputation. -/
def verify_checksum (H : List Nat → Nat) : Option Wallet → Bool
  | none => false
  | some w =>
    if checksum_tag_set w then calculate_checksum H w == w.checksum
    else true

/-! ## ETH sign-message back controller
(sign_messgae_controller_b_eth.c) -/

def MAX_PASSPHRASE_INPUT_LENGTH : Nat := 65

/-- Wallet_credential_data (wallet.h): the process-wide credential
buffer. -/
structure WalletCredentialData where
  mnemonics : List Nat
  passphrase : List Nat
  password_single_hash : List Nat
deriving DecidableEq, Repr

/-- Values of flow_level.level_three this controller dispatches on; any
other value of the surrounding enum falls to the default case. -/
inductive LevelThree where
  | SIGN_MSG_VERIFY_COIN_ETH
  | SIGN_MSG_VERIFY_CONTRACT_ADDRESS_ETH
  | SIGN_MSG_ENTER_PIN_ETH
  | SIGN_MSG_ENTER_PASSPHRASE_ETH
  | SIGN_MSG_CONFIRM_PASSPHRASE_ETH
  | otherLevel (n : Nat)
deriving DecidableEq, Repr

/-- Rejection codes passed to comm_reject_request. -/
inductive RejectReason where
  | signMsgStart
  | userRejectPinInput
  | userRejectedPassphraseInput
deriving DecidableEq, Repr

structure FlowLevel where
  level_three : LevelThree
  screen_input_text : List Nat
deriving DecidableEq, Repr

/-- The state this controller can touch: the flow-level bookkeeping, the
process-wide credential buffer, counter.next_event_flag, and the
rejections sent to the host (in order). -/
structure SignMsgEthState where
  flow_level : FlowLevel
  wallet_credential_data : WalletCredentialData
  next_event_flag : Bool
  rejections : List RejectReason
deriving DecidableEq, Repr

/-- Modelled from the spec: reset_flow_level is external to the given
sources; it resets the flow-level bookkeeping to its ground level and
does not touch the credential buffer. -/
def reset_flow_level (f : FlowLevel) : FlowLevel :=
  { f with level_three := .otherLevel 0 }

def sign_message_controller_b_eth (s : SignMsgEthState) : SignMsgEthState :=
  match s.flow_level.level_three with
  | .SIGN_MSG_VERIFY_COIN_ETH =>
    { s with rejections := s.rejections ++ [.signMsgStart]
             flow_level := reset_flow_level s.flow_level
             next_event_flag := true }
  | .SIGN_MSG_VERIFY_CONTRACT_ADDRESS_ETH =>
    { s with rejections := s.rejections ++ [.signMsgStart]
             flow_level := reset_flow_level s.flow_level
             next_event_flag := true }
  | .SIGN_MSG_ENTER_PIN_ETH =>
    { s with rejections := s.rejections ++ [.userRejectPinInput]
             flow_level :=
               { reset_flow_level s.flow_level with
                 screen_input_text :=
                   List.replicate s.flow_level.screen_input_text.length 0 }
             next_event_flag := true }
  | .SIGN_MSG_ENTER_PASSPHRASE_ETH =>
    { s with rejections := s.rejections ++ [.userRejectedPassphraseInput]
             flow_level :=
               { reset_flow_level s.flow_level with
                 screen_input_text :=
                   List.replicate s.flow_level.screen_input_text.length 0 }
             next_event_flag := true }
  | .SIGN_MSG_CONFIRM_PASSPHRASE_ETH =>
    { s with wallet_credential_data :=
               { s.wallet_credential_data with
                 passphrase := List.replicate MAX_PASSPHRASE_INPUT_LENGTH 0 }
             flow_level :=
               { s.flow_level with
                 level_three := .SIGN_MSG_ENTER_PASSPHRASE_ETH } }
  | .otherLevel _ => s

/-! ## Concrete inputs used by the theorems below -/

/-- Event status: an NFC hardware event occurred (no P0, no USB). -/
def nfcOkEvt : EvtStatus := ⟨false, ⟨false, none⟩⟩

/-- Event status: a USB message arrived that decodes to `q`. -/
def usbMsgEvt (q : ManagerQuery) : EvtStatus := ⟨false, ⟨true, some q⟩⟩

/-- Event status: a P0 (user abort / inactivity timeout) signal. -/
def p0Evt : EvtStatus := ⟨true, ⟨false, none⟩⟩

/-- Initiate request without card index, with pair_card = true. -/
def initiateQ : ManagerQuery :=
  ⟨MANAGER_QUERY_AUTH_CARD_TAG,
   ⟨MANAGER_AUTH_CARD_REQUEST_INITIATE_TAG, ⟨false, 0, true, true⟩, ⟨false⟩⟩⟩

/-- Initiate request with neither optional field present. -/
def initiateNoPairQ : ManagerQuery :=
  ⟨MANAGER_QUERY_AUTH_CARD_TAG,
   ⟨MANAGER_AUTH_CARD_REQUEST_INITIATE_TAG, ⟨false, 0, false, false⟩, ⟨false⟩⟩⟩

/-- Initiate request with card_index = 2 and pair_card = true. -/
def initiateCard2PairQ : ManagerQuery :=
  ⟨MANAGER_QUERY_AUTH_CARD_TAG,
   ⟨MANAGER_AUTH_CARD_REQUEST_INITIATE_TAG, ⟨true, 2, true, true⟩, ⟨false⟩⟩⟩

/-- Challenge request. -/
def challengeQ : ManagerQuery :=
  ⟨MANAGER_QUERY_AUTH_CARD_TAG,
   ⟨MANAGER_AUTH_CARD_REQUEST_CHALLENGE_TAG, ⟨false, 0, false, false⟩, ⟨false⟩⟩⟩

/-- Result request carrying the host's verification verdict. -/
def resultQ (verified : Bool) : ManagerQuery :=
  ⟨MANAGER_QUERY_AUTH_CARD_TAG,
   ⟨MANAGER_AUTH_CARD_REQUEST_RESULT_TAG, ⟨false, 0, false, false⟩, ⟨verified⟩⟩⟩

/-- The screen context card_auth_handler starts from. -/
def emptyCtx : AuthCardScreenCtx :=
  ⟨.emptyText, .emptyText, ACCEPTABLE_CARDS_ALL, false⟩

/-! ## Theorems -/

/-- Claim C1 (counterexample): in state SERIAL_SIGNED a result request
with verified = false does produce the flow-complete response with the
status left at SERIAL_SIGNED, but the driver loop does not terminate at
its next stop-check: with a P0 signal at the following host-message wait
the loop re-dispatches the stale result request twice more, emitting a
duplicate flow-complete response each time, still running after four
iterations. -/
theorem card_auth_result_failed_loop_continues_cex :
    card_auth_handler 4 initiateNoPairQ 0
        [nfcOkEvt, usbMsgEvt (resultQ false), p0Evt] =
      ⟨[⟨MANAGER_AUTH_CARD_RESPONSE_SERIAL_SIGNATURE_TAG, 0⟩,
        ⟨MANAGER_AUTH_CARD_RESPONSE_FLOW_COMPLETE_TAG, 0⟩,
        ⟨MANAGER_AUTH_CARD_RESPONSE_FLOW_COMPLETE_TAG, 0⟩,
        ⟨MANAGER_AUTH_CARD_RESPONSE_FLOW_COMPLETE_TAG, 0⟩],
       MANAGER_AUTH_CARD_STATUS_SERIAL_SIGNED, .outOfFuel⟩ := by
  decide

/-- Claim C1 (amended): in state SERIAL_SIGNED a result request with
verified = false yields a flow-complete(failed) response and the flow
status stays SERIAL_SIGNED (no transition), but the driver loop does not
terminate at its next stop-check: it blocks for the next event and
dispatches again — on an inactivity timeout the stale result request is
re-dispatched, emitting a further flow-complete response, the loop still
running after three iterations. -/
theorem card_auth_result_failed_response_and_loop :
    ∀ (d : AuthCardData) (r : ManagerAuthCardResponse) (evs : List EvtStatus),
      d.query.auth_card.result.verified = false →
      handle_auth_card_result_query (some d) (some r)
          MANAGER_AUTH_CARD_STATUS_SERIAL_SIGNED evs =
        some ⟨.MANAGER_TASK_SUCCESS, some d,
          some ⟨MANAGER_AUTH_CARD_RESPONSE_FLOW_COMPLETE_TAG, 0⟩,
          MANAGER_AUTH_CARD_STATUS_SERIAL_SIGNED, evs⟩ ∧
      card_auth_handler 3 initiateNoPairQ 0
          [nfcOkEvt, usbMsgEvt (resultQ false)] =
        ⟨[⟨MANAGER_AUTH_CARD_RESPONSE_SERIAL_SIGNATURE_TAG, 0⟩,
          ⟨MANAGER_AUTH_CARD_RESPONSE_FLOW_COMPLETE_TAG, 0⟩,
          ⟨MANAGER_AUTH_CARD_RESPONSE_FLOW_COMPLETE_TAG, 0⟩],
         MANAGER_AUTH_CARD_STATUS_SERIAL_SIGNED, .outOfFuel⟩ := by
  intro d r evs h
  refine ⟨?_, by decide⟩
  simp [handle_auth_card_result_query, h, MANAGER_AUTH_CARD_STATUS_SERIAL_SIGNED]

/-- Claim C1 (witness for the amended theorem). -/
theorem card_auth_result_failed_response_and_loop_witness :
    handle_auth_card_result_query
        (some ⟨resultQ false, emptyCtx⟩) (some ⟨0, 0⟩)
        MANAGER_AUTH_CARD_STATUS_SERIAL_SIGNED [] =
      some ⟨.MANAGER_TASK_SUCCESS, some ⟨resultQ false, emptyCtx⟩,
        some ⟨MANAGER_AUTH_CARD_RESPONSE_FLOW_COMPLETE_TAG, 0⟩,
        MANAGER_AUTH_CARD_STATUS_SERIAL_SIGNED, []⟩ ∧
      card_auth_handler 3 initiateNoPairQ 0
          [nfcOkEvt, usbMsgEvt (resultQ false)] =
        ⟨[⟨MANAGER_AUTH_CARD_RESPONSE_SERIAL_SIGNATURE_TAG, 0⟩,
          ⟨MANAGER_AUTH_CARD_RESPONSE_FLOW_COMPLETE_TAG, 0⟩,
          ⟨MANAGER_AUTH_CARD_RESPONSE_FLOW_COMPLETE_TAG, 0⟩],
         MANAGER_AUTH_CARD_STATUS_SERIAL_SIGNED, .outOfFuel⟩ :=
  card_auth_result_failed_response_and_loop
    ⟨resultQ false, emptyCtx⟩ ⟨0, 0⟩ [] rfl

/-- Claim C2 (code bug): after the flow reaches SERIAL_SIGNED and a
result{verified = false} has been answered, a P0 abort at the next
host-message wait does not terminate the loop: the do-while condition
`false == p0 || PAIRING_DONE != status` stays true, the stale result
request is re-dispatched and a further flow-complete response is emitted
after the abort signal, contrary to the documented loop contract. -/
theorem card_auth_p0_does_not_terminate_loop :
    card_auth_handler 3 initiateNoPairQ 0
        [nfcOkEvt, usbMsgEvt (resultQ false), p0Evt] =
      ⟨[⟨MANAGER_AUTH_CARD_RESPONSE_SERIAL_SIGNATURE_TAG, 0⟩,
        ⟨MANAGER_AUTH_CARD_RESPONSE_FLOW_COMPLETE_TAG, 0⟩,
        ⟨MANAGER_AUTH_CARD_RESPONSE_FLOW_COMPLETE_TAG, 0⟩],
       MANAGER_AUTH_CARD_STATUS_SERIAL_SIGNED, .outOfFuel⟩ := by
  decide

/-- Claim C3: the full happy path — initiate (pairing required), then
challenge, then result{verified = true}, with a hardware event at each
NFC wait — emits exactly the serial-signature and challenge-signature
intermediate responses followed by exactly one flow-complete response,
leaves the flow status at PAIRING_DONE, and the driver returns. -/
theorem card_auth_happy_path :
    card_auth_handler 10 initiateQ 0
        [nfcOkEvt, usbMsgEvt challengeQ, nfcOkEvt, usbMsgEvt (resultQ true)] =
      ⟨[⟨MANAGER_AUTH_CARD_RESPONSE_SERIAL_SIGNATURE_TAG, 0⟩,
        ⟨MANAGER_AUTH_CARD_RESPONSE_CHALLENGE_SIGNATURE_TAG, 0⟩,
        ⟨MANAGER_AUTH_CARD_RESPONSE_FLOW_COMPLETE_TAG, 0⟩],
       MANAGER_AUTH_CARD_STATUS_PAIRING_DONE, .returned⟩ := by
  decide

/-- Claim C4: dispatching an initiate request in any flow status other
than INIT returns InvalidState and leaves the flow status, the auth-card
data, the response object and the event source unchanged. -/
theorem initiate_query_outside_init_invalid_state :
    ∀ (flow_status : Nat) (d : AuthCardData) (r : ManagerAuthCardResponse)
      (evs : List EvtStatus),
      flow_status ≠ MANAGER_AUTH_CARD_STATUS_INIT →
      handle_auth_card_initiate_query (some d) (some r) flow_status evs =
        some ⟨.MANAGER_TASK_INVALID_STATE, some d, some r, flow_status, evs⟩ := by
  intro flow_status d r evs h
  simp [handle_auth_card_initiate_query, h]

/-- Claim C4 (witness). -/
theorem initiate_query_outside_init_invalid_state_witness :
    handle_auth_card_initiate_query
        (some ⟨initiateQ, emptyCtx⟩) (some ⟨0, 0⟩)
        MANAGER_AUTH_CARD_STATUS_SERIAL_SIGNED [] =
      some ⟨.MANAGER_TASK_INVALID_STATE, some ⟨initiateQ, emptyCtx⟩,
        some ⟨0, 0⟩, MANAGER_AUTH_CARD_STATUS_SERIAL_SIGNED, []⟩ :=
  initiate_query_outside_init_invalid_state
    MANAGER_AUTH_CARD_STATUS_SERIAL_SIGNED ⟨initiateQ, emptyCtx⟩ ⟨0, 0⟩ []
    (by decide)

/-- Claim C5: verify_checksum is false on a null wallet; on a wallet it
is true exactly when the checksum-present tag is unset or the stored
checksum equals the recomputation over the fixed field ordering — so
with the tag unset it is true regardless of content. -/
theorem verify_checksum_spec :
    ∀ (H : List Nat → Nat) (w : Wallet),
      verify_checksum H none = false ∧
      (verify_checksum H (some w) = true ↔
        (checksum_tag_set w = false ∨ calculate_checksum H w = w.checksum)) := by
  intro H w
  refine ⟨rfl, ?_⟩
  by_cases h : checksum_tag_set w <;>
    simp [verify_checksum, h]

/-- Claim C6: the ETH sign-message back controller leaves the credential
buffer untouched in every case except the confirm-passphrase cancel —
the one case at which the flow has populated it — where the passphrase
it holds is replaced by all zero bytes before control is handed back. -/
theorem sign_message_b_eth_credential_zeroed :
    ∀ s : SignMsgEthState,
      (sign_message_controller_b_eth s).wallet_credential_data =
        (if s.flow_level.level_three = .SIGN_MSG_CONFIRM_PASSPHRASE_ETH then
          { s.wallet_credential_data with
            passphrase := List.replicate MAX_PASSPHRASE_INPUT_LENGTH 0 }
         else s.wallet_credential_data) := by
  intro s
  cases h : s.flow_level.level_three <;>
    simp [sign_message_controller_b_eth, h]

/-- Claim C7: the inbound query adapter, on non-null pointers, returns
success and leaves the output query untouched when the USB flag is
clear; with the flag set it returns DecodingFailed when the byte stream
does not parse, UnknownRequest when the parsed top-level discriminant is
not the card-authentication tag, and copies the decoded query to the
output only on success. -/
theorem decode_and_verify_adapter_spec :
    ∀ (usb_evt : UsbEvent) (query_out : ManagerQuery),
      (usb_evt.flag = false →
        decode_and_verify_auth_card_query_if_usb_evt
            (some usb_evt) (some query_out) =
          (.MANAGER_TASK_SUCCESS, some query_out)) ∧
      (usb_evt.flag = true →
        decode_and_verify_auth_card_query_if_usb_evt
            (some usb_evt) (some query_out) =
          match usb_evt.msg with
          | none => (.MANAGER_TASK_DECODING_FAILED, some query_out)
          | some q =>
            if q.which_request = MANAGER_QUERY_AUTH_CARD_TAG then
              (.MANAGER_TASK_SUCCESS, some q)
            else
              (.MANAGER_TASK_UNKNOWN_QUERY_REQUEST, some query_out)) := by
  intro usb_evt query_out
  constructor <;> intro h <;>
    simp [decode_and_verify_auth_card_query_if_usb_evt, h]

/-- Claim C7 (witness). -/
theorem decode_and_verify_adapter_spec_witness :
    decode_and_verify_auth_card_query_if_usb_evt
        (some ⟨false, none⟩) (some MANAGER_QUERY_INIT_ZERO) =
      (.MANAGER_TASK_SUCCESS, some MANAGER_QUERY_INIT_ZERO) ∧
    decode_and_verify_auth_card_query_if_usb_evt
        (some ⟨true, none⟩) (some MANAGER_QUERY_INIT_ZERO) =
      (.MANAGER_TASK_DECODING_FAILED, some MANAGER_QUERY_INIT_ZERO) :=
  ⟨(decode_and_verify_adapter_spec ⟨false, none⟩ MANAGER_QUERY_INIT_ZERO).1 rfl,
   (decode_and_verify_adapter_spec ⟨true, none⟩ MANAGER_QUERY_INIT_ZERO).2 rfl⟩

/-- Claim C8: handling an initiate request in state INIT sets the
acceptable-cards constraint to the bitmask of the requested card index
when present and to the accept-all sentinel otherwise, sets
pairing-required from the request's pair_card when present and to false
otherwise, and moves the flow status to USER_CONFIRMED (exposed here by
aborting the subsequent serial-sign hardware wait, which is the next,
separate transition); for initiate(card_index = 2, pair_card = true) the
prepared heading references card 2 and pairing-required is true. -/
theorem initiate_query_prepares_context_and_confirms :
    (∀ (d : AuthCardData) (r : ManagerAuthCardResponse) (rest : List EvtStatus),
      handle_auth_card_initiate_query (some d) (some r)
          MANAGER_AUTH_CARD_STATUS_INIT (p0Evt :: rest) =
        some ⟨.MANAGER_TASK_P0_ABORT_OCCURED,
          some (prepare_card_auth_context d), some r,
          MANAGER_AUTH_CARD_STATUS_USER_CONFIRMED, rest⟩) ∧
    (∀ d : AuthCardData,
      (prepare_card_auth_context d).ctx.acceptable_cards =
        (if d.query.auth_card.initiate.has_card_index then
          encode_card_number d.query.auth_card.initiate.card_index
         else ACCEPTABLE_CARDS_ALL) ∧
      (prepare_card_auth_context d).ctx.pair_card_required =
        (if d.query.auth_card.initiate.has_pair_card then
          d.query.auth_card.initiate.pair_card
         else false) ∧
      (prepare_card_auth_context d).ctx.heading =
        (if d.query.auth_card.initiate.has_card_index then
          .tapCardNumber d.query.auth_card.initiate.card_index
         else .tapACard)) ∧
    ((prepare_card_auth_context ⟨initiateCard2PairQ, emptyCtx⟩).ctx.heading =
        .tapCardNumber 2 ∧
      (prepare_card_auth_context ⟨initiateCard2PairQ, emptyCtx⟩).ctx.pair_card_required =
        true) := by
  refine ⟨?_, ?_, by decide⟩
  · intro d r rest
    simp [handle_auth_card_initiate_query, handle_sign_card_serial,
      get_events, p0Evt, MANAGER_AUTH_CARD_STATUS_INIT]
  · intro d
    refine ⟨?_, ?_, ?_⟩ <;> simp [prepare_card_auth_context]

/-- Claim C9 (code bug): the null-pointer guard of
handle_auth_card_result_query is `NULL == auth_card_data && NULL !=
resp`, so with both pointers null — and likewise with only the response
pointer null in a response-producing state — the handler does not
return InvalidArguments but dereferences a null pointer (modelled as the
crash value `none`). -/
theorem result_query_null_pointer_crash :
    handle_auth_card_result_query none none
        MANAGER_AUTH_CARD_STATUS_SERIAL_SIGNED [] = none ∧
    handle_auth_card_result_query (some ⟨resultQ false, emptyCtx⟩) none
        MANAGER_AUTH_CARD_STATUS_SERIAL_SIGNED [] = none := by
  decide

/-- Claim C10: card_auth_handler ignores every query whose auth-card
sub-type is not the initiate tag — returning with no response and the
flow-status cell untouched — and for an initiate query it resets the
flow-status cell to INIT before dispatching, so the run is independent
of whatever status a previous flow left behind. -/
theorem card_auth_handler_entry_spec :
    ∀ (query : ManagerQuery) (fs fs' fuel : Nat) (evs : List EvtStatus),
      (query.auth_card.which_request ≠ MANAGER_AUTH_CARD_REQUEST_INITIATE_TAG →
        card_auth_handler fuel query fs evs = ⟨[], fs, .returned⟩) ∧
      (query.auth_card.which_request = MANAGER_AUTH_CARD_REQUEST_INITIATE_TAG →
        card_auth_handler fuel query fs evs =
          card_auth_handler fuel query fs' evs) := by
  intro query fs fs' fuel evs
  constructor <;> intro h <;> simp [card_auth_handler, h]

/-- Claim C10 (witness). -/
theorem card_auth_handler_entry_spec_witness :
    card_auth_handler 1 challengeQ 3 [] = ⟨[], 3, .returned⟩ ∧
    card_auth_handler 1 initiateNoPairQ 3 [] =
      card_auth_handler 1 initiateNoPairQ 0 [] :=
  ⟨(card_auth_handler_entry_spec challengeQ 3 0 1 []).1 (by decide),
   (card_auth_handler_entry_spec initiateNoPairQ 3 0 1 []).2 (by decide)⟩

end X1Wallet
